import Mathlib

/-!
# Verification of the Beeminder focus-session timer

A shallow embedding, in Lean 4, of the timer application in `src/App.tsx`
(the variant with the deadline clock, manual flush and persisted timer
state).  The React component's state hooks become fields of an explicit
`AppState` record; each event handler (`startTimer`, `cancelTimer`,
`resetAfterFinish`, `togglePause`, `flushTimer`) and each effect (the
countdown tick, the completion post) becomes a pure function from state
(plus the current clock value and, for posting code, the HTTP response)
to state.  The network is modelled by a `Request` record describing the
datapoint POST an operation issues, and a `FetchResult` describing what
`fetch` returned.  Timestamps are integer milliseconds, durations integer
seconds — all the arithmetic the source performs on them is exact in
IEEE doubles over these ranges, so `Int` is a faithful model.  Datapoint
values (minutes, possibly fractional) are rationals.
-/

namespace BeeminderTimer

/-- The `Status` union type: `"idle" | "running" | "posting" | "finished" | "error"`. -/
inductive Status where
  | idle
  | running
  | posting
  | finished
  | error
deriving DecidableEq, Repr

/-- `res.ok` in JS: the HTTP status code is in the range 200–299. -/
def respOk (code : Nat) : Bool := 200 ≤ code && code < 300

/-- The outcome of a `fetch`: either an HTTP response (any status code,
with its body text) or a network-level exception with its message. -/
inductive FetchResult where
  | response (statusCode : Nat) (body : String)
  | netError (msg : String)
deriving DecidableEq, Repr

/-- The datapoint POST built in `postToBeeminder` / `flushTimer`: the
endpoint path components (`username`, `goalSlug`) together with the
form-encoded body fields `auth_token`, `value`, `comment`, `timestamp`.
The source sends `value` as `(… / 60).toString()`; we keep the exact
rational. -/
structure Request where
  username : String
  goalSlug : String
  authToken : String
  value : ℚ
  comment : String
  timestamp : Int
deriving DecidableEq, Repr

/-- The `StoredTimerState` record persisted under `TIMER_STATE_KEY`. -/
structure StoredTimerState where
  status : Status
  remaining : Int
  deadline : Option Int
  paused : Bool
  goalSlug : String
  selectedDuration : Int
  comment : String
deriving DecidableEq, Repr

/-- The `StoredSettings` record persisted under `SETTINGS_KEY`, as it
looks after `JSON.parse`: each field may be absent (the loader applies
`?? ""`). -/
structure RawStoredSettings where
  username : Option String
  authToken : Option String
  goalSlug : Option String
deriving DecidableEq, Repr

/-- The component state: one field per `useState` hook that the timer
logic touches, plus the two local-storage records the timer logic reads
and writes (`timerStorage` under `TIMER_STATE_KEY`, `settingsStorage`
under `SETTINGS_KEY`).  The goal-list state (`goals`, `loadingGoals`,
`goalsError`, `lastGoalsUpdate`) is omitted: no operation verified here
reads or writes it. -/
structure AppState where
  remaining : Option Int
  deadline : Option Int
  status : Status
  error : Option String
  paused : Bool
  username : String
  authToken : String
  goalSlug : String
  comment : String
  selectedDuration : Int
  flushMessage : Option String
  hasStoredSettings : Bool
  showSettingsForm : Bool
  timerStorage : Option StoredTimerState
  settingsStorage : Option RawStoredSettings
deriving DecidableEq, Repr

/-- `THIRTY_MINUTES = 30 * 60` seconds. -/
def THIRTY_MINUTES : Int := 30 * 60

/-- The initial hook values: `useState(null)`, `useState("idle")`,
`useState(false)`, `useState("")`, `useState(THIRTY_MINUTES)`,
`useState(true)` for `showSettingsForm`; local storage empty. -/
def initState : AppState where
  remaining := none
  deadline := none
  status := Status.idle
  error := none
  paused := false
  username := ""
  authToken := ""
  goalSlug := ""
  comment := ""
  selectedDuration := THIRTY_MINUTES
  flushMessage := none
  hasStoredSettings := false
  showSettingsForm := true
  timerStorage := none
  settingsStorage := none

/-- `Math.round(ms / 1000)` for an integer number of milliseconds.
JS `Math.round x` is `⌊x + 1/2⌋` (half-up, which is also what makes
`Math.round(-0.5) = -0`), so on integer `ms` it is the floor division
`⌊(ms + 500) / 1000⌋`. -/
def jsRoundDiv1000 (ms : Int) : Int := Int.fdiv (ms + 500) 1000

/-- `JSON.stringify`-free model of JS number-to-string for the rationals
this app interpolates into comment strings.  Exact for integers (the only
values the app produces from the duration buttons); non-integers keep the
rational's own print form.  No theorem below depends on this rendering. -/
def jsNumToString (q : ℚ) : String :=
  if q.den = 1 then toString q.num else toString q

/-- `Number.prototype.toFixed(2)` for the positive rationals the flush
path formats: round `q` to the nearest hundredth (ties up) and print two
decimal digits. -/
def toFixed2 (q : ℚ) : String :=
  let n : Int := ⌊q * 100 + 1 / 2⌋
  let whole := Int.fdiv n 100
  let frac := Int.emod n 100
  toString whole ++ "." ++ (if frac < 10 then "0" else "") ++ toString frac

/-- The countdown interval body (the `useEffect` guarded by
`status !== "running" || deadline === null`):
`secsLeft = Math.max(0, Math.round((deadline - Date.now()) / 1000))`,
then `setRemaining(secsLeft)`.  When the effect is not installed the
state is unchanged. -/
def tick (s : AppState) (now : Int) : AppState :=
  match s.status, s.deadline with
  | Status.running, some dl =>
      { s with remaining := some (max 0 (jsRoundDiv1000 (dl - now))) }
  | _, _ => s

/-- `if (secsLeft <= 0) window.clearInterval(id)`: whether the interval
clears itself on this tick.  (The effect cleanup also clears it whenever
`status` or `deadline` changes, i.e. when the state leaves `running`.) -/
def tickClears (s : AppState) (now : Int) : Bool :=
  match s.deadline with
  | some dl => max 0 (jsRoundDiv1000 (dl - now)) ≤ 0
  | none => true

/-- `startTimer`.  The request component records any datapoint POST the
handler issues; the source's `startTimer` performs no `fetch`, so it is
`none` on every path — carried explicitly so that "no network call
occurs" is a statement about the function, not about its absence. -/
def startTimer (s : AppState) (now : Int) : AppState × Option Request :=
  if s.goalSlug = "" then
    ({ s with status := Status.error,
              error := some "You must select a goal first." }, none)
  else if s.username = "" ∨ s.authToken = "" then
    ({ s with status := Status.error,
              error := some "Username and auth token are required to start." }, none)
  else
    let dl := now + s.selectedDuration * 1000
    ({ s with error := none
            , flushMessage := none
            , status := Status.running
            , paused := false
            , remaining := some s.selectedDuration
            , deadline := some dl
            , timerStorage := some
                { status := Status.running
                , remaining := s.selectedDuration
                , deadline := some dl
                , paused := false
                , goalSlug := s.goalSlug
                , selectedDuration := s.selectedDuration
                , comment := s.comment } }, none)

/-- `cancelTimer`: clear everything, return to idle, remove the
persisted timer record. -/
def cancelTimer (s : AppState) : AppState :=
  { s with deadline := none
         , remaining := none
         , status := Status.idle
         , paused := false
         , error := none
         , flushMessage := none
         , timerStorage := none }

/-- `resetAfterFinish`: textually identical body to `cancelTimer` in the
source. -/
def resetAfterFinish (s : AppState) : AppState :=
  { s with deadline := none
         , remaining := none
         , status := Status.idle
         , paused := false
         , error := none
         , flushMessage := none
         , timerStorage := none }

/-- `togglePause`.  Pausing drops the deadline and sets `paused`;
resuming recomputes `deadline = Date.now() + remaining * 1000`.  The
persisted record is built from the handler's closure, so its `deadline`
field is the **pre-update** value (`setDeadline` has not re-rendered
yet) while `paused` is the toggled value — modelled faithfully. -/
def togglePause (s : AppState) (now : Int) : AppState :=
  match s.remaining with
  | none => s
  | some r =>
    let s1 :=
      if ¬ s.paused then
        { s with deadline := none, paused := true }
      else
        { s with deadline := some (now + r * 1000), paused := false }
    { s1 with timerStorage := some
                { status := s.status
                , remaining := r
                , deadline := s.deadline
                , paused := !s.paused
                , goalSlug := s.goalSlug
                , selectedDuration := s.selectedDuration
                , comment := s.comment } }

/-- The default comment `${selectedDuration / 60}-minutes focus session`. -/
def defaultComment (selectedDuration : Int) : String :=
  jsNumToString ((selectedDuration : ℚ) / 60) ++ "-minutes focus session"

/-- The synchronous head of the completion `useEffect` (guard, field
validation) together with the prefix of `postToBeeminder` up to the
`fetch`: returns the updated state and the datapoint request issued, if
any.  The guard is
`remaining !== 0 || status === "posting" || status === "finished"`
(`remaining !== 0` also holds when `remaining` is `null`). -/
def completionStart (s : AppState) (now : Int) : AppState × Option Request :=
  if s.remaining ≠ some 0 ∨ s.status = Status.posting ∨ s.status = Status.finished then
    (s, none)
  else if s.username = "" ∨ s.authToken = "" ∨ s.goalSlug = "" then
    ({ s with status := Status.error,
              error := some "Username, auth token and goal slug are required." }, none)
  else
    let actualComment :=
      if s.comment.trim = "" then defaultComment s.selectedDuration else s.comment.trim
    ({ s with status := Status.posting, error := none },
     some { username := s.username
          , goalSlug := s.goalSlug
          , authToken := s.authToken
          , value := (s.selectedDuration : ℚ) / 60
          , comment := actualComment
          , timestamp := Int.fdiv now 1000 })

/-- The continuation of `postToBeeminder` after `fetch` resolves: a 2xx
response sets `finished` and removes the persisted timer record; a
non-2xx response throws `Beeminder error ${res.status}: ${text}` and a
network exception propagates, both caught by the `catch` that sets
`error` status and keeps the message. -/
def completionResolve (s : AppState) (res : FetchResult) : AppState :=
  match res with
  | FetchResult.response code body =>
      if respOk code then
        { s with status := Status.finished, timerStorage := none }
      else
        { s with status := Status.error,
                 error := some ("Beeminder error " ++ toString code ++ ": " ++ body) }
  | FetchResult.netError msg =>
      { s with status := Status.error, error := some msg }

/-- The whole completion effect as one atomic operation, `fetch`
resolving to `res`: if the effect issues a request, run the
continuation on its outcome. -/
def completionStep (s : AppState) (now : Int) (res : FetchResult) : AppState :=
  match completionStart s now with
  | (s1, none) => s1
  | (s1, some _) => completionResolve s1 res

/-- `flushTimer` run to completion with `fetch` resolving to `res`;
returns the final state and the datapoint request issued, if any.
Guard: `remaining === null || selectedDuration <= 0 || !username ||
!authToken || !goalSlug` returns silently; `elapsed <= 0` returns with
the "nothing to flush" message; otherwise post `value = elapsed / 60`,
and on success clear the timer and the persisted record, on failure
enter `error` with the message. -/
def flushTimer (s : AppState) (now : Int) (res : FetchResult) : AppState × Option Request :=
  match s.remaining with
  | none => (s, none)
  | some r =>
    if s.selectedDuration ≤ 0 ∨ s.username = "" ∨ s.authToken = "" ∨ s.goalSlug = "" then
      (s, none)
    else
      let elapsed := s.selectedDuration - r
      if elapsed ≤ 0 then
        ({ s with flushMessage := some "No time elapsed to flush." }, none)
      else
        let value : ℚ := (elapsed : ℚ) / 60
        let req : Request :=
          { username := s.username
          , goalSlug := s.goalSlug
          , authToken := s.authToken
          , value := value
          , comment := "Flushed timer: " ++ toFixed2 value ++ " minutes"
          , timestamp := Int.fdiv now 1000 }
        let posting := { s with status := Status.posting, error := none }
        match res with
        | FetchResult.response code body =>
            if respOk code then
              ({ posting with deadline := none
                            , remaining := none
                            , status := Status.idle
                            , paused := false
                            , timerStorage := none
                            , flushMessage :=
                                some ("Logged " ++ toFixed2 value ++ " minutes to Beeminder.") },
               some req)
            else
              ({ posting with status := Status.error,
                              error := some ("Beeminder error " ++ toString code ++ ": " ++ body) },
               some req)
        | FetchResult.netError msg =>
            ({ posting with status := Status.error, error := some msg }, some req)

/-- `saveSettings`: write `{ username, authToken, goalSlug }` under
`SETTINGS_KEY` (every field present in the stored JSON); if username and
token are non-empty, mark settings as stored and hide the form. -/
def saveSettings (s : AppState) : AppState :=
  let stored : RawStoredSettings :=
    { username := some s.username
    , authToken := some s.authToken
    , goalSlug := some s.goalSlug }
  let s1 := { s with settingsStorage := some stored }
  if s.username ≠ "" ∧ s.authToken ≠ "" then
    { s1 with hasStoredSettings := true, showSettingsForm := false }
  else s1

/-- The settings block of the startup `useEffect` (the first `try` of
the loader): if a settings record is present, read each field with
`?? ""` and, when username and token are both non-empty, mark settings
as stored and hide the form.  A missing record leaves the defaults. -/
def loadSettings (s : AppState) : AppState :=
  match s.settingsStorage with
  | none => s
  | some p =>
    let loadedUsername := p.username.getD ""
    let loadedToken := p.authToken.getD ""
    let loadedGoalSlug := p.goalSlug.getD ""
    let s1 := { s with username := loadedUsername
                     , authToken := loadedToken
                     , goalSlug := loadedGoalSlug }
    if loadedUsername ≠ "" ∧ loadedToken ≠ "" then
      { s1 with hasStoredSettings := true, showSettingsForm := false }
    else s1

/-- A simulated restart: a fresh component (all hooks back to their
initial values) over the same local storage. -/
def restart (s : AppState) : AppState :=
  { initState with timerStorage := s.timerStorage
                 , settingsStorage := s.settingsStorage }

/-- The states reachable from an idle start (credentials and comment as
typed by the user, every other field at its initial value) by the
operations the timer logic performs: start, tick, pause/resume
(`togglePause` covers both), cancel, reset-after-finish, manual flush,
and the completion post. -/
inductive Reachable : AppState → Prop where
  | init (u t g c : String) :
      Reachable { initState with username := u, authToken := t, goalSlug := g, comment := c }
  | start (s : AppState) (now : Int) :
      Reachable s → Reachable (startTimer s now).1
  | tick (s : AppState) (now : Int) :
      Reachable s → Reachable (tick s now)
  | togglePause (s : AppState) (now : Int) :
      Reachable s → Reachable (togglePause s now)
  | cancel (s : AppState) :
      Reachable s → Reachable (cancelTimer s)
  | reset (s : AppState) :
      Reachable s → Reachable (resetAfterFinish s)
  | flush (s : AppState) (now : Int) (res : FetchResult) :
      Reachable s → Reachable (flushTimer s now res).1
  | completion (s : AppState) (now : Int) (res : FetchResult) :
      Reachable s → Reachable (completionStep s now res)

/-- The state invariant that the operations actually maintain: a
running, unpaused timer always has a deadline; a paused timer never
does; `remaining` is never negative; and the selected duration stays
non-negative.  (The converse — a deadline only while running and
unpaused — fails: the completion post never clears `deadline`.) -/
def Inv (s : AppState) : Prop :=
  (s.status = Status.running ∧ s.paused = false → s.deadline ≠ none)
  ∧ (s.paused = true → s.deadline = none)
  ∧ (∀ r, s.remaining = some r → 0 ≤ r)
  ∧ 0 ≤ s.selectedDuration

/-- An idle state with credentials filled in, used to instantiate the
theorems below on concrete inputs. -/
def readyState : AppState :=
  { initState with username := "u", authToken := "t", goalSlug := "g" }

/-- **C4.** For every selected duration `d > 0`, calling start with
non-empty goal slug, username and token sets status to `running`, sets
`remaining = d` (so reading remaining immediately after start yields
`d`), and sets `deadline = now + d` (the deadline the source stores is
`Date.now() + d * 1000`, i.e. the moment `d` seconds after `now` on the
millisecond clock). -/
theorem start_sets_running_remaining_deadline (s : AppState) (now : Int)
    (hd : 0 < s.selectedDuration) (hu : s.username ≠ "")
    (ht : s.authToken ≠ "") (hg : s.goalSlug ≠ "") :
    (startTimer s now).1.status = Status.running
    ∧ (startTimer s now).1.remaining = some s.selectedDuration
    ∧ (startTimer s now).1.deadline = some (now + s.selectedDuration * 1000) := by
  simp [startTimer, hu, ht, hg]

/-- Witness for C4: starting from `readyState` (duration 1800 s) at
`now = 100` yields a running timer with `remaining = 1800` and
`deadline = 100 + 1800 * 1000`. -/
theorem start_sets_running_remaining_deadline_witness :
    (startTimer readyState 100).1.status = Status.running
    ∧ (startTimer readyState 100).1.remaining = some 1800
    ∧ (startTimer readyState 100).1.deadline = some 1800100 :=
  start_sets_running_remaining_deadline readyState 100 (by decide) (by decide)
    (by decide) (by decide)

/-- **C2.** While status is `running` with a non-null deadline, a tick
sets `remaining = max 0 (round ((deadline - now) / 1000))`; the new
value is recomputed from the stored absolute deadline, not from the
previous `remaining` (tick output is unchanged under any change to the
`remaining` field); the interval clears itself exactly when the
recomputed remaining is 0; and outside `running` the tick effect is not
installed (the tick is the identity). -/
theorem tick_recomputes_from_deadline (s : AppState) (now dl : Int)
    (hs : s.status = Status.running) (hdl : s.deadline = some dl) :
    (tick s now).remaining = some (max 0 (jsRoundDiv1000 (dl - now)))
    ∧ (∀ r, (tick { s with remaining := r } now).remaining = (tick s now).remaining)
    ∧ (tickClears s now = true ↔ max 0 (jsRoundDiv1000 (dl - now)) = 0)
    ∧ (∀ s2 : AppState, s2.status ≠ Status.running → tick s2 now = s2) := by
  refine ⟨by simp [tick, hs, hdl], by simp [tick, hs, hdl], ?_, ?_⟩
  · simp only [tickClears, hdl, decide_eq_true_eq]
    omega
  · intro s2 h2
    unfold tick
    cases hs2 : s2.status <;> simp_all

/-- Witness for C2: one tick of the timer started from `readyState` at
time 0, taken at `now = 1799400` ms, recomputes `remaining = 1` from
the deadline 1800000. -/
theorem tick_recomputes_from_deadline_witness :
    (tick (startTimer readyState 0).1 1799400).remaining = some (max 0 (jsRoundDiv1000 (1800000 - 1799400))) :=
  (tick_recomputes_from_deadline (startTimer readyState 0).1 1799400 1800000
    (by decide) (by decide)).1

/-- **C5.** For every running state with `remaining = r`, pausing
freezes `remaining` at `r` and clears the deadline; resuming sets
`deadline = now + r` (stored as `now + r * 1000` on the millisecond
clock); hence pausing then immediately resuming leaves `remaining`
unchanged (exactly — within the claim's one tick of rounding). -/
theorem pause_resume_preserves_remaining (s : AppState) (r now now2 : Int)
    (hs : s.status = Status.running) (hp : s.paused = false)
    (hr : s.remaining = some r) :
    (togglePause s now).remaining = some r
    ∧ (togglePause s now).deadline = none
    ∧ (togglePause s now).paused = true
    ∧ (togglePause (togglePause s now) now2).remaining = some r
    ∧ (togglePause (togglePause s now) now2).deadline = some (now2 + r * 1000)
    ∧ (togglePause (togglePause s now) now2).paused = false := by
  simp [togglePause, hr, hp]

/-- Witness for C5: pause at `now = 5000` and resume at `now2 = 9000`
on the timer started from `readyState` keeps `remaining = 1800` and
sets the resumed deadline to `9000 + 1800 * 1000`. -/
theorem pause_resume_preserves_remaining_witness :
    (togglePause (startTimer readyState 0).1 5000).remaining = some 1800
    ∧ (togglePause (startTimer readyState 0).1 5000).deadline = none
    ∧ (togglePause (startTimer readyState 0).1 5000).paused = true
    ∧ (togglePause (togglePause (startTimer readyState 0).1 5000) 9000).remaining = some 1800
    ∧ (togglePause (togglePause (startTimer readyState 0).1 5000) 9000).deadline = some (9000 + 1800 * 1000)
    ∧ (togglePause (togglePause (startTimer readyState 0).1 5000) 9000).paused = false :=
  pause_resume_preserves_remaining (startTimer readyState 0).1 1800 5000 9000
    (by decide) (by decide) (by decide)

/-- **C8.** For every state in which at least one of username, auth
token, or goal slug is empty, calling start transitions status to
`error` with a validation message and performs no network call (the
request component of `startTimer` is `none`). -/
theorem start_missing_fields_errors (s : AppState) (now : Int)
    (h : s.username = "" ∨ s.authToken = "" ∨ s.goalSlug = "") :
    (startTimer s now).1.status = Status.error
    ∧ ((startTimer s now).1.error = some "You must select a goal first."
       ∨ (startTimer s now).1.error = some "Username and auth token are required to start.")
    ∧ (startTimer s now).2 = none := by
  unfold startTimer
  by_cases hg : s.goalSlug = "" <;> by_cases hu : s.username = "" <;>
    by_cases ht : s.authToken = "" <;> simp_all

/-- Witness for C8: starting from the initial state (all credentials
empty) errors out without issuing a request. -/
theorem start_missing_fields_errors_witness :
    (startTimer initState 0).1.status = Status.error
    ∧ ((startTimer initState 0).1.error = some "You must select a goal first."
       ∨ (startTimer initState 0).1.error = some "Username and auth token are required to start.")
    ∧ (startTimer initState 0).2 = none :=
  start_missing_fields_errors initState 0 (Or.inl rfl)

/-- **C9.** When manual flush is invoked with elapsed time
`selectedDuration - remaining` equal to 0, no network call is made and
the "No time elapsed to flush." message is produced, leaving the timer
state otherwise unchanged. -/
theorem flush_zero_elapsed_no_post (s : AppState) (now : Int) (res : FetchResult)
    (hr : s.remaining = some s.selectedDuration) (hd : 0 < s.selectedDuration)
    (hu : s.username ≠ "") (ht : s.authToken ≠ "") (hg : s.goalSlug ≠ "") :
    (flushTimer s now res).2 = none
    ∧ (flushTimer s now res).1
      = { s with flushMessage := some "No time elapsed to flush." } := by
  have h1 : ¬ (s.selectedDuration ≤ 0 ∨ s.username = "" ∨ s.authToken = "" ∨ s.goalSlug = "") := by
    push_neg
    exact ⟨by omega, hu, ht, hg⟩
  simp [flushTimer, hr, h1]

/-- Witness for C9: flushing the timer immediately after starting it
from `readyState` (remaining still equal to the full duration) posts
nothing and only sets the flush message. -/
theorem flush_zero_elapsed_no_post_witness :
    (flushTimer (startTimer readyState 0).1 0 (FetchResult.response 200 "ok")).2 = none
    ∧ (flushTimer (startTimer readyState 0).1 0 (FetchResult.response 200 "ok")).1
      = { (startTimer readyState 0).1 with flushMessage := some "No time elapsed to flush." } :=
  flush_zero_elapsed_no_post (startTimer readyState 0).1 0 (FetchResult.response 200 "ok")
    (by decide) (by decide) (by decide) (by decide) (by decide)

/-- **C10.** When a manual flush's datapoint POST fails — non-2xx
response or network exception — status becomes `error` with the error
message retained, and `remaining`, `deadline`, `paused` and the
persisted timer-state record are all left unchanged. -/
theorem flush_failure_preserves_session (s : AppState) (now r : Int) (code : Nat)
    (body msg : String)
    (hr : s.remaining = some r) (hd : 0 < s.selectedDuration)
    (he : r < s.selectedDuration)
    (hu : s.username ≠ "") (ht : s.authToken ≠ "") (hg : s.goalSlug ≠ "")
    (hcode : respOk code = false) :
    ((flushTimer s now (FetchResult.response code body)).1.status = Status.error
     ∧ (flushTimer s now (FetchResult.response code body)).1.error
        = some ("Beeminder error " ++ toString code ++ ": " ++ body)
     ∧ (flushTimer s now (FetchResult.response code body)).1.remaining = s.remaining
     ∧ (flushTimer s now (FetchResult.response code body)).1.deadline = s.deadline
     ∧ (flushTimer s now (FetchResult.response code body)).1.paused = s.paused
     ∧ (flushTimer s now (FetchResult.response code body)).1.timerStorage = s.timerStorage)
    ∧ ((flushTimer s now (FetchResult.netError msg)).1.status = Status.error
     ∧ (flushTimer s now (FetchResult.netError msg)).1.error = some msg
     ∧ (flushTimer s now (FetchResult.netError msg)).1.remaining = s.remaining
     ∧ (flushTimer s now (FetchResult.netError msg)).1.deadline = s.deadline
     ∧ (flushTimer s now (FetchResult.netError msg)).1.paused = s.paused
     ∧ (flushTimer s now (FetchResult.netError msg)).1.timerStorage = s.timerStorage) := by
  have h1 : ¬ (s.selectedDuration ≤ 0 ∨ s.username = "" ∨ s.authToken = "" ∨ s.goalSlug = "") := by
    push_neg
    refine ⟨by omega, hu, ht, hg⟩
  have h2 : ¬ (s.selectedDuration - r ≤ 0) := by omega
  simp [flushTimer, hr, h1, h2, hcode]

/-- Witness for C10: flushing a partially elapsed timer (remaining
1500 of 1800) against a 500 response, and against a network error,
keeps the session fields and the persisted record. -/
theorem flush_failure_preserves_session_witness :
    ((flushTimer (tick (startTimer readyState 0).1 300000) 300000 (FetchResult.response 500 "oops")).1.status = Status.error
     ∧ (flushTimer (tick (startTimer readyState 0).1 300000) 300000 (FetchResult.response 500 "oops")).1.error
        = some ("Beeminder error " ++ toString 500 ++ ": " ++ "oops")
     ∧ (flushTimer (tick (startTimer readyState 0).1 300000) 300000 (FetchResult.response 500 "oops")).1.remaining
        = (tick (startTimer readyState 0).1 300000).remaining
     ∧ (flushTimer (tick (startTimer readyState 0).1 300000) 300000 (FetchResult.response 500 "oops")).1.deadline
        = (tick (startTimer readyState 0).1 300000).deadline
     ∧ (flushTimer (tick (startTimer readyState 0).1 300000) 300000 (FetchResult.response 500 "oops")).1.paused
        = (tick (startTimer readyState 0).1 300000).paused
     ∧ (flushTimer (tick (startTimer readyState 0).1 300000) 300000 (FetchResult.response 500 "oops")).1.timerStorage
        = (tick (startTimer readyState 0).1 300000).timerStorage)
    ∧ ((flushTimer (tick (startTimer readyState 0).1 300000) 300000 (FetchResult.netError "net down")).1.status = Status.error
     ∧ (flushTimer (tick (startTimer readyState 0).1 300000) 300000 (FetchResult.netError "net down")).1.error = some "net down"
     ∧ (flushTimer (tick (startTimer readyState 0).1 300000) 300000 (FetchResult.netError "net down")).1.remaining
        = (tick (startTimer readyState 0).1 300000).remaining
     ∧ (flushTimer (tick (startTimer readyState 0).1 300000) 300000 (FetchResult.netError "net down")).1.deadline
        = (tick (startTimer readyState 0).1 300000).deadline
     ∧ (flushTimer (tick (startTimer readyState 0).1 300000) 300000 (FetchResult.netError "net down")).1.paused
        = (tick (startTimer readyState 0).1 300000).paused
     ∧ (flushTimer (tick (startTimer readyState 0).1 300000) 300000 (FetchResult.netError "net down")).1.timerStorage
        = (tick (startTimer readyState 0).1 300000).timerStorage) :=
  flush_failure_preserves_session (tick (startTimer readyState 0).1 300000) 300000 1500 500
    "oops" "net down" (by decide) (by decide) (by decide) (by decide) (by decide) (by decide)
    (by decide)

/-- **C7.** For every settings record, saving the settings and then
reloading them from storage after a simulated restart restores
username, token, and goal slug exactly: the round-trip through the
persistence adapter is the identity on those fields. -/
theorem settings_roundtrip (s : AppState) :
    (loadSettings (restart (saveSettings s))).username = s.username
    ∧ (loadSettings (restart (saveSettings s))).authToken = s.authToken
    ∧ (loadSettings (restart (saveSettings s))).goalSlug = s.goalSlug := by
  by_cases h : s.username ≠ "" ∧ s.authToken ≠ "" <;>
    simp [saveSettings, restart, loadSettings, h]

/-- **C6.** Every transition from a non-idle status back to `idle` —
cancel, reset-after-finish, and a successful manual flush — removes the
persisted timer-state record from local storage. -/
theorem idle_transitions_clear_timer_storage (s : AppState) (now r : Int)
    (code : Nat) (body : String)
    (hr : s.remaining = some r) (hd : 0 < s.selectedDuration)
    (he : r < s.selectedDuration)
    (hu : s.username ≠ "") (ht : s.authToken ≠ "") (hg : s.goalSlug ≠ "")
    (hcode : respOk code = true) :
    ((cancelTimer s).status = Status.idle ∧ (cancelTimer s).timerStorage = none)
    ∧ ((resetAfterFinish s).status = Status.idle ∧ (resetAfterFinish s).timerStorage = none)
    ∧ ((flushTimer s now (FetchResult.response code body)).1.status = Status.idle
       ∧ (flushTimer s now (FetchResult.response code body)).1.timerStorage = none) := by
  have h1 : ¬ (s.selectedDuration ≤ 0 ∨ s.username = "" ∨ s.authToken = "" ∨ s.goalSlug = "") := by
    push_neg
    refine ⟨by omega, hu, ht, hg⟩
  have h2 : ¬ (s.selectedDuration - r ≤ 0) := by omega
  refine ⟨⟨rfl, rfl⟩, ⟨rfl, rfl⟩, ?_⟩
  simp [flushTimer, hr, h1, h2, hcode]

/-- Witness for C6: cancel, reset, and a successful flush of a
partially elapsed timer all reach `idle` with the stored record
removed. -/
theorem idle_transitions_clear_timer_storage_witness :
    ((cancelTimer (tick (startTimer readyState 0).1 300000)).status = Status.idle
     ∧ (cancelTimer (tick (startTimer readyState 0).1 300000)).timerStorage = none)
    ∧ ((resetAfterFinish (tick (startTimer readyState 0).1 300000)).status = Status.idle
     ∧ (resetAfterFinish (tick (startTimer readyState 0).1 300000)).timerStorage = none)
    ∧ ((flushTimer (tick (startTimer readyState 0).1 300000) 300000 (FetchResult.response 200 "ok")).1.status = Status.idle
     ∧ (flushTimer (tick (startTimer readyState 0).1 300000) 300000 (FetchResult.response 200 "ok")).1.timerStorage = none) :=
  idle_transitions_clear_timer_storage (tick (startTimer readyState 0).1 300000) 300000 1500
    200 "ok" (by decide) (by decide) (by decide) (by decide) (by decide) (by decide)
    (by decide)

/-- **C1.** For every state in which `remaining` has reached 0 while
username, auth token and goal slug are all non-empty (and the effect
has not already run: status is neither `posting` nor `finished`),
exactly one datapoint POST attempt is made — the effect issues one
request, whose `value` is `selectedDuration / 60` minutes — status
transitions first to `posting`, then on a 2xx response to `finished`;
and neither the `posting` nor the `finished` state lets the effect
issue another request. -/
theorem completion_posts_once_then_finishes (s : AppState) (now now2 now3 : Int)
    (code : Nat) (body : String)
    (h0 : s.remaining = some 0) (h1 : s.status ≠ Status.posting)
    (h2 : s.status ≠ Status.finished)
    (hu : s.username ≠ "") (ht : s.authToken ≠ "") (hg : s.goalSlug ≠ "")
    (hcode : respOk code = true) :
    ∃ req : Request,
      (completionStart s now).2 = some req
      ∧ req.value = (s.selectedDuration : ℚ) / 60
      ∧ (completionStart s now).1.status = Status.posting
      ∧ (completionStart (completionStart s now).1 now2).2 = none
      ∧ (completionResolve (completionStart s now).1 (FetchResult.response code body)).status
          = Status.finished
      ∧ (completionStart
          (completionResolve (completionStart s now).1 (FetchResult.response code body))
          now3).2 = none := by
  have hguard : ¬ (s.remaining ≠ some 0 ∨ s.status = Status.posting ∨ s.status = Status.finished) := by
    push_neg
    exact ⟨by simp [h0], h1, h2⟩
  have hfields : ¬ (s.username = "" ∨ s.authToken = "" ∨ s.goalSlug = "") := by
    push_neg
    exact ⟨hu, ht, hg⟩
  refine ⟨{ username := s.username
          , goalSlug := s.goalSlug
          , authToken := s.authToken
          , value := (s.selectedDuration : ℚ) / 60
          , comment := if s.comment.trim = "" then defaultComment s.selectedDuration
                       else s.comment.trim
          , timestamp := Int.fdiv now 1000 }, ?_, ?_, ?_, ?_, ?_, ?_⟩ <;>
    simp [completionStart, completionResolve, hguard, hfields, hcode]

/-- Witness for C1: run the timer started from `readyState` to its
deadline; the completion effect posts value `1800 / 60 = 30` minutes,
moves to `posting`, will not fire again from `posting`, finishes on a
200 response, and will not fire again from `finished`. -/
theorem completion_posts_once_then_finishes_witness :
    ∃ req : Request,
      (completionStart (tick (startTimer readyState 0).1 1800000) 1800000).2 = some req
      ∧ req.value = ((tick (startTimer readyState 0).1 1800000).selectedDuration : ℚ) / 60
      ∧ (completionStart (tick (startTimer readyState 0).1 1800000) 1800000).1.status = Status.posting
      ∧ (completionStart (completionStart (tick (startTimer readyState 0).1 1800000) 1800000).1 1800001).2 = none
      ∧ (completionResolve (completionStart (tick (startTimer readyState 0).1 1800000) 1800000).1
          (FetchResult.response 200 "ok")).status = Status.finished
      ∧ (completionStart
          (completionResolve (completionStart (tick (startTimer readyState 0).1 1800000) 1800000).1
            (FetchResult.response 200 "ok"))
          1800002).2 = none :=
  completion_posts_once_then_finishes (tick (startTimer readyState 0).1 1800000)
    1800000 1800001 1800002 200 "ok" (by decide) (by decide) (by decide)
    (by decide) (by decide) (by decide) (by decide)

/-- `startTimer` preserves the state invariant. -/
theorem inv_startTimer (s : AppState) (now : Int) (h : Inv s) :
    Inv (startTimer s now).1 := by
  obtain ⟨h1, h2, h3, h4⟩ := h
  unfold startTimer
  split_ifs with hg hut
  · exact ⟨by simp, h2, h3, h4⟩
  · exact ⟨by simp, h2, h3, h4⟩
  · refine ⟨by simp, by simp, ?_, h4⟩
    intro r hr
    simp only [Option.some.injEq] at hr
    omega

/-- The countdown tick preserves the state invariant. -/
theorem inv_tick (s : AppState) (now : Int) (h : Inv s) : Inv (tick s now) := by
  obtain ⟨h1, h2, h3, h4⟩ := h
  unfold tick
  split
  next hs hdl =>
    refine ⟨by simp_all, by simp_all, ?_, h4⟩
    intro r hr
    simp only [Option.some.injEq] at hr
    omega
  next => exact ⟨h1, h2, h3, h4⟩

/-- `togglePause` (pause and resume) preserves the state invariant. -/
theorem inv_togglePause (s : AppState) (now : Int) (h : Inv s) :
    Inv (togglePause s now) := by
  obtain ⟨h1, h2, h3, h4⟩ := h
  unfold togglePause
  split
  next => exact ⟨h1, h2, h3, h4⟩
  next r hr =>
    by_cases hp : s.paused = true <;>
      refine ⟨?_, ?_, ?_, ?_⟩ <;> simp [hp] <;>
        first
          | exact h4
          | exact fun r2 hr2 => h3 r2 hr2

/-- `cancelTimer` preserves the state invariant. -/
theorem inv_cancelTimer (s : AppState) (h : Inv s) : Inv (cancelTimer s) := by
  obtain ⟨h1, h2, h3, h4⟩ := h
  exact ⟨by simp [cancelTimer], by simp [cancelTimer], by simp [cancelTimer], h4⟩

/-- `resetAfterFinish` preserves the state invariant. -/
theorem inv_resetAfterFinish (s : AppState) (h : Inv s) : Inv (resetAfterFinish s) := by
  obtain ⟨h1, h2, h3, h4⟩ := h
  exact ⟨by simp [resetAfterFinish], by simp [resetAfterFinish],
    by simp [resetAfterFinish], h4⟩

/-- `flushTimer` preserves the state invariant. -/
theorem inv_flushTimer (s : AppState) (now : Int) (res : FetchResult) (h : Inv s) :
    Inv (flushTimer s now res).1 := by
  obtain ⟨h1, h2, h3, h4⟩ := h
  cases hr : s.remaining with
  | none =>
    simp [Inv, flushTimer, hr]
    exact ⟨fun a b => h1 ⟨a, b⟩, h2, h4⟩
  | some r =>
    by_cases hguard : s.selectedDuration ≤ 0 ∨ s.username = "" ∨ s.authToken = "" ∨ s.goalSlug = ""
    · simp [Inv, flushTimer, hr, hguard]
      exact ⟨fun a b => h1 ⟨a, b⟩, h2, h3 r hr, h4⟩
    · by_cases helapsed : s.selectedDuration - r ≤ 0
      · simp [Inv, flushTimer, hr, hguard, helapsed]
        exact ⟨fun a b => h1 ⟨a, b⟩, h2, h3 r hr, h4⟩
      · cases res with
        | response code body =>
          by_cases hc : respOk code = true
          · simp [Inv, flushTimer, hr, hguard, helapsed, hc]
            exact h4
          · simp [Inv, flushTimer, hr, hguard, helapsed, hc]
            exact ⟨h2, h3 r hr, h4⟩
        | netError m =>
          simp [Inv, flushTimer, hr, hguard, helapsed]
          exact ⟨h2, h3 r hr, h4⟩

/-- The completion post preserves the state invariant (note: it never
clears `deadline`, which is exactly why only this direction of the
spec's biconditional survives). -/
theorem inv_completionStep (s : AppState) (now : Int) (res : FetchResult) (h : Inv s) :
    Inv (completionStep s now res) := by
  obtain ⟨h1, h2, h3, h4⟩ := h
  by_cases hg : s.remaining ≠ some 0 ∨ s.status = Status.posting ∨ s.status = Status.finished
  · simpa [completionStep, completionStart, if_pos hg] using ⟨h1, h2, h3, h4⟩
  · by_cases hf : s.username = "" ∨ s.authToken = "" ∨ s.goalSlug = ""
    · simp [Inv, completionStep, completionStart, hg, hf]
      exact ⟨h2, h3, h4⟩
    · cases res with
      | response code body =>
        by_cases hc : respOk code = true
        · simp [Inv, completionStep, completionStart, completionResolve, hg, hf, hc]
          exact ⟨h2, h3, h4⟩
        · simp [Inv, completionStep, completionStart, completionResolve, hg, hf, hc]
          exact ⟨h2, h3, h4⟩
      | netError m =>
        simp [Inv, completionStep, completionStart, completionResolve, hg, hf]
        exact ⟨h2, h3, h4⟩

/-- Every reachable state satisfies the invariant. -/
theorem inv_reachable (s : AppState) (h : Reachable s) : Inv s := by
  induction h with
  | init u t g c =>
    exact ⟨by simp [initState], by simp [initState], by simp [initState],
      by simp [initState, THIRTY_MINUTES]⟩
  | start s now _ ih => exact inv_startTimer s now ih
  | tick s now _ ih => exact inv_tick s now ih
  | togglePause s now _ ih => exact inv_togglePause s now ih
  | cancel s _ ih => exact inv_cancelTimer s ih
  | reset s _ ih => exact inv_resetAfterFinish s ih
  | flush s now res _ ih => exact inv_flushTimer s now res ih
  | completion s now res _ ih => exact inv_completionStep s now res ih

/-- **C3 (amended).** In every state reachable by the operations
(start, tick, pause, resume, cancel, reset, flush, post-completion):
if status is `running` and `paused` is false then `deadline` is
non-null; whenever `paused` holds, `deadline` is null; and `remaining`
is either null or ≥ 0.  Only this direction of the claim's
biconditional holds — the converse (`deadline` non-null **only if**
running and unpaused) is refuted by
`deadline_iff_running_counterexample`, because the completion post
never clears `deadline`. -/
theorem reachable_state_invariant (s : AppState) (h : Reachable s) :
    (s.status = Status.running ∧ s.paused = false → s.deadline ≠ none)
    ∧ (s.paused = true → s.deadline = none)
    ∧ (∀ r, s.remaining = some r → 0 ≤ r) :=
  ⟨(inv_reachable s h).1, (inv_reachable s h).2.1, (inv_reachable s h).2.2.1⟩

/-- Witness for C3 (amended): the freshly started timer is reachable,
running and unpaused, and the theorem yields its non-null deadline. -/
theorem reachable_state_invariant_witness :
    (startTimer readyState 0).1.deadline ≠ none :=
  (reachable_state_invariant (startTimer readyState 0).1
    (Reachable.start readyState 0 (Reachable.init "u" "t" "g" ""))).1
    ⟨by decide, by decide⟩

/-- **C3 counterexample.** The claim's "deadline is non-null if and
only if status is `running` and paused is false" fails on the code: run
a started timer to its deadline and let the completion post succeed —
the reachable result has status `finished` yet still carries
`deadline = some 1800000`, because neither `postToBeeminder` nor the
effect around it ever calls `setDeadline(null)`. -/
theorem deadline_iff_running_counterexample :
    Reachable (completionStep (tick (startTimer readyState 0).1 1800000) 1800000
      (FetchResult.response 200 "ok"))
    ∧ (completionStep (tick (startTimer readyState 0).1 1800000) 1800000
        (FetchResult.response 200 "ok")).status = Status.finished
    ∧ (completionStep (tick (startTimer readyState 0).1 1800000) 1800000
        (FetchResult.response 200 "ok")).deadline = some 1800000 := by
  refine ⟨?_, by decide, by decide⟩
  exact Reachable.completion (tick (startTimer readyState 0).1 1800000) 1800000
    (FetchResult.response 200 "ok")
    (Reachable.tick (startTimer readyState 0).1 1800000
      (Reachable.start readyState 0 (Reachable.init "u" "t" "g" "")))

end BeeminderTimer
